import Mathlib

/-!
Verification development for the AI Organiser MCP server (src/server.py).

The file shallowly embeds the decision logic of the server:
the credential resolver `get_integration_token` and the save tool
`ai_organiser_save`.  Strings are modelled as Lean `String`
(character lists), the HTTP request context as an explicit structure,
the process environment variable and the network outcome as explicit
parameters.  The intent-parsing layer described by the design document
is not implemented as code in src/server.py (the repository delegates
trigger detection to the calling agent through instruction text), so
that layer is modelled from the specification text and clearly marked
as such below.
-/

/-- Python `str.split(" ", 1)` on a character list: splits at the first
space only.  Returns the part before the first space and, when a space
occurs, the remainder after it. -/
def splitFirstSpace : List Char → List Char × Option (List Char)
  | [] => ([], none)
  | a :: as =>
    if a = ' ' then ([], some as)
    else
      let r := splitFirstSpace as
      (a :: r.1, r.2)

/-- Whitespace characters stripped by Python `str.strip()` (the ASCII
whitespace set, which covers every input relevant here). -/
def isWs (c : Char) : Bool :=
  c = ' ' || c = '\t' || c = '\n' || c = '\r' || c = '\x0b' || c = '\x0c'

/-- Python `str.strip()` on a character list. -/
def trimCL (l : List Char) : List Char :=
  ((l.dropWhile isWs).reverse.dropWhile isWs).reverse

/-- Python `str.lower()` restricted to the alphabets that occur in the
strings this system compares case-insensitively (ASCII and the basic
Cyrillic block). -/
def lowerChar (c : Char) : Char :=
  if 'A' ≤ c ∧ c ≤ 'Z' then Char.ofNat (c.toNat + 32)
  else if 0x410 ≤ c.toNat ∧ c.toNat ≤ 0x42F then Char.ofNat (c.toNat + 32)
  else if c.toNat = 0x401 then Char.ofNat 0x451
  else c

/-- `str.lower()` over a character list. -/
def lowerCL (l : List Char) : List Char := l.map lowerChar

/-- Name of the fallback environment variable (src/server.py line 12). -/
def INTEGRATION_TOKEN_ENV_VAR : String := "AI_ORGANISER_INTEGRATION_TOKEN"

/-- The inbound HTTP request context: its URL query parameters and its
headers (header names arrive lower-cased).  `get_http_headers()` in the
source exposes only the headers of this context. -/
structure RequestContext where
  queryParams : List (String × String)
  headers : List (String × String)
deriving DecidableEq, Repr

/-- Dictionary-style lookup, `dict.get(k)` on an association list. -/
def dictGet (hs : List (String × String)) (k : String) : Option String :=
  match hs with
  | [] => none
  | (k', v) :: rest => if k' = k then some v else dictGet rest k

/-- `get_http_headers()` from fastmcp as used by the source: yields the
request headers, or an empty dict when no HTTP request context exists
(src/server.py line 29). -/
def get_http_headers (ctx : Option RequestContext) : List (String × String) :=
  match ctx with
  | some c => c.headers
  | none => []

/-- The bearer-token extraction of `get_integration_token`
(src/server.py lines 32-48): split the authorization value at the first
space, require exactly two parts with the first lower-casing to
"bearer", strip the remainder, and accept it only when non-empty. -/
def token_from_header (auth : Option String) : Option String :=
  match auth with
  | none => none
  | some a =>
    match splitFirstSpace a.data with
    | (_, none) => none
    | (scheme, some rest) =>
      if lowerCL scheme = "bearer".data then
        let candidate := trimCL rest
        if candidate = [] then none else some (String.mk candidate)
      else none

/-- Python truthiness filter on the environment variable
(src/server.py lines 51-57): `os.getenv` yields `none` when unset, and
an empty value is treated as absent. -/
def envNonEmpty (envToken : Option String) : Option String :=
  match envToken with
  | some e => if e = "" then none else some e
  | none => none

/-- `get_integration_token` (src/server.py lines 15-64): try the
Authorization bearer header of the current HTTP request, then fall back
to the `AI_ORGANISER_INTEGRATION_TOKEN` environment variable, else
`None`.  The environment variable value is passed explicitly. -/
def get_integration_token (ctx : Option RequestContext) (envToken : Option String) :
    Option String :=
  match token_from_header (dictGet (get_http_headers ctx) "authorization") with
  | some t => some t
  | none => envNonEmpty envToken

/-- The hardcoded Supabase anon key of the deployment
(src/server.py lines 413-417). -/
def SUPABASE_ANON_KEY : String :=
  "eyJhbGciOiJIUzI1NiIsInR5cCI6IkpXVCJ9." ++
  "eyJpc3MiOiJzdXBhYmFzZSIsInJlZiI6InRyem93c2Z3dXJndGNkeGp3ZXZpIiwicm9sZSI6ImFub24iLCJpYXQiOjE3NjMxMDUyMTYsImV4cCI6MjA3ODY4MTIxNn0." ++
  "0l394mJ9cLNN_QxNl9DKzdw1ni_-SBawGzoSrchNcJI"

/-- The JSON payload posted to the Supabase quick-add function
(src/server.py lines 500-507).  `sourceUrl` and `sourceTitle` are
always sent as null; the `project` key is present only when
`project_name` is truthy. -/
structure Payload where
  text : String
  sourceUrl : Option String := none
  sourceTitle : Option String := none
  project : Option String := none
deriving DecidableEq, Repr

/-- Payload construction of `ai_organiser_save`
(src/server.py lines 500-507): `if project_name:` adds the `project`
key, so `None` and the empty string both omit it. -/
def buildPayload (body : String) (project_name : Option String) : Payload :=
  { text := body,
    sourceUrl := none,
    sourceTitle := none,
    project :=
      match project_name with
      | some p => if p = "" then none else some p
      | none => none }

/-- `project_name or "Inbox"` from the success result
(src/server.py line 582): Python `or` replaces a falsy value
(`None` or the empty string) with "Inbox". -/
def orInbox (project_name : Option String) : String :=
  match project_name with
  | some p => if p = "" then "Inbox" else p
  | none => "Inbox"

/-- Outcome of the single outbound HTTP call: either a raised
transport/network exception (with its rendered detail) or a response
with an HTTP status code. -/
inductive TransportOutcome where
  | exc (detail : String) : TransportOutcome
  | response (status : Nat) : TransportOutcome
deriving DecidableEq, Repr

/-- The result dict returned by `ai_organiser_save`: the union of the
keys produced on its five return paths, absent keys as `none`.  The
opaque `supabase_response` JSON value is not modelled.  The modelled
`skipped` error-type value is produced only by the spec-modelled
utterance-gated wrapper below, never by the source tool itself. -/
structure SaveResult where
  saved : Bool
  error_type : String
  message_for_model : Option String := none
  error_msg : Option String := none
  project_name : Option String := none
  title : Option String := none
  body_length : Option Nat := none
  truncated : Option Bool := none
  supabase_status : Option Nat := none
deriving DecidableEq, Repr

/-- A run of the save operation: its returned dict, whether the
outbound HTTP call was performed, and the payload sent when it was. -/
structure SaveOutput where
  result : SaveResult
  networkCalled : Bool
  payloadSent : Option Payload := none
deriving DecidableEq, Repr

/-- message_for_model of the misconfiguration path
(src/server.py lines 466-471). -/
def msgMisconfigured : String :=
  "The AI Organiser backend is misconfigured on the server " ++
  "(missing Supabase anon key). Tell the user that saving " ++
  "to AI Organiser is temporarily unavailable and that they " ++
  "should copy the content manually."

/-- message_for_model of the missing-credential path
(src/server.py lines 487-492). -/
def msgNoToken : String :=
  "There is no valid integration token for AI Organiser in this request. " ++
  "Ask the user to connect or reconnect their AI Organiser account via " ++
  "the app\x27s OAuth \x2f account linking flow, then try again. " ++
  "Also remind them that the full content is still available in this chat."

/-- error string of the missing-credential path
(src/server.py lines 493-496). -/
def errNoToken : String :=
  "No integration token available: neither bearer token from Authorization " ++
  "header nor AI_ORGANISER_INTEGRATION_TOKEN env is set."

/-- message_for_model of the generic HTTP-error path
(src/server.py lines 535-541). -/
def msgBackendHttp : String :=
  "The AI Organiser backend returned an error while saving the note. " ++
  "Tell the user that saving to AI Organiser failed this time, but they " ++
  "still have the full content in the chat and can copy it manually. " ++
  "You SHOULD NOT say that ChatGPT or the system is globally forbidden " ++
  "to save to external tools."

/-- message_for_model of the 401\x2f403 HTTP path
(src/server.py lines 545-551). -/
def msgAuthHttp : String :=
  "AI Organiser reported that the access token or integration key is " ++
  "invalid or no longer accepted. Ask the user to reconnect their " ++
  "AI Organiser account via the app\x27s OAuth \x2f account linking flow " ++
  "and then try again. Also remind them that the full content " ++
  "is still available in this chat."

/-- message_for_model of the transport-exception path
(src/server.py lines 599-603). -/
def msgTransportExc : String :=
  "There was a network or backend error while calling AI Organiser. " ++
  "Tell the user that saving failed due to a temporary technical issue, " ++
  "and suggest copying the content manually so it is not lost."

/-- `ai_organiser_save` (src/server.py lines 423-606).  The globals it
reads (the anon key, the HTTP request context, the environment
variable) and the outcome the network would produce are passed
explicitly; logging is omitted.  The function is total: every transport
outcome, exceptions included, is mapped to a returned dict, mirroring
the try\x2fexcept that wraps the whole outbound call. -/
def ai_organiser_save (anonKey : String) (ctx : Option RequestContext)
    (envToken : Option String) (body : String) (project_name : Option String)
    (title : Option String) (outcome : TransportOutcome) : SaveOutput :=
  let body_length := some body.length
  if anonKey = "" then
    { result :=
        { saved := false,
          error_type := "backend_error",
          message_for_model := some msgMisconfigured,
          error_msg := some "SUPABASE_ANON_KEY is not configured.",
          body_length := body_length },
      networkCalled := false }
  else
    match get_integration_token ctx envToken with
    | none =>
      { result :=
          { saved := false,
            error_type := "auth_error",
            message_for_model := some msgNoToken,
            error_msg := some errNoToken,
            body_length := body_length },
        networkCalled := false }
    | some _integration_token =>
      let payload := buildPayload body project_name
      match outcome with
      | .exc detail =>
        { result :=
            { saved := false,
              error_type := "backend_error",
              message_for_model := some msgTransportExc,
              error_msg := some ("Exception while calling Supabase: " ++ detail),
              body_length := body_length },
          networkCalled := true,
          payloadSent := some payload }
      | .response status =>
        if 400 ≤ status then
          if status = 401 ∨ status = 403 then
            { result :=
                { saved := false,
                  error_type := "auth_error",
                  message_for_model := some msgAuthHttp,
                  supabase_status := some status,
                  body_length := body_length },
              networkCalled := true,
              payloadSent := some payload }
          else
            { result :=
                { saved := false,
                  error_type := "backend_error",
                  message_for_model := some msgBackendHttp,
                  supabase_status := some status,
                  body_length := body_length },
              networkCalled := true,
              payloadSent := some payload }
        else
          { result :=
              { saved := true,
                error_type := "none",
                project_name := some (orInbox project_name),
                title := title,
                body_length := body_length,
                truncated := some false },
            networkCalled := true,
            payloadSent := some payload }

/-- `l.isPrefixOf` on character lists, written out so proofs can unfold
it step by step. -/
def isPrefixCL : List Char → List Char → Bool
  | [], _ => true
  | _ :: _, [] => false
  | a :: as, b :: bs => if a = b then isPrefixCL as bs else false

/-- Substring containment (Python `needle in hay`) on character
lists. -/
def containsSub (needle : List Char) : List Char → Bool
  | [] => needle.isEmpty
  | a :: rest => isPrefixCL needle (a :: rest) || containsSub needle rest

/-- Characters strictly after the first occurrence of `c`, when `c`
occurs. -/
def afterFirst (c : Char) : List Char → Option (List Char)
  | [] => none
  | a :: as => if a = c then some as else afterFirst c as

/-- Characters strictly before the first occurrence of `c`, when `c`
occurs. -/
def beforeFirst (c : Char) : List Char → Option (List Char)
  | [] => none
  | a :: as => if a = c then some [] else (beforeFirst c as).map (a :: ·)

/-- Interior of the first matched `l` ... `r` delimiter pair: the text
after the first `l` and before the first `r` that follows it. -/
def extractBetween (l r : Char) (s : List Char) : Option (List Char) :=
  (afterFirst l s).bind (beforeFirst r)

/-- The trimmed text, or `none` when trimming leaves nothing. -/
def nonEmptyTrim (l : List Char) : Option (List Char) :=
  let t := trimCL l
  if t = [] then none else some t

/-- Characters of `orig` after the first position where `markerLow` is
a case-insensitive prefix; `none` when the marker does not occur. -/
def dropThroughMarker (markerLow : List Char) : List Char → Option (List Char)
  | [] => if markerLow.isEmpty then some [] else none
  | a :: rest =>
    if isPrefixCL markerLow (lowerCL (a :: rest)) then
      some ((a :: rest).drop markerLow.length)
    else dropThroughMarker markerLow rest

/-- Modelled from the spec: the trigger keyword of the Intent Parser
(section 4.2), the fixed save-command literal of the instruction text.
The Intent Parser is not implemented in src/server.py. -/
def TRIGGER_KEYWORD : String := "сохрани"

/-- Modelled from the spec: the directed form, the trigger keyword
immediately followed by the destination preposition (section 4.2). -/
def DIRECTED_MARKER : String := "сохрани в"

/-- The parsed outcome of a raw utterance (spec section 3): whether a
save should happen, and an optional destination whose absence means the
default container. -/
structure Intent where
  shouldSave : Bool
  destination : Option String
deriving DecidableEq, Repr

/-- Modelled from the spec: the Intent Parser `parse` (section 4.2),
which src/server.py does not implement as code (trigger detection is
delegated to the calling agent through instruction text).  Evaluated in
order: empty or absent input never saves; an utterance without the
trigger keyword (case-insensitive) never saves; keyword without the
directed form saves to the default container; with the directed form
the destination is the first of (a) interior of a matched guillemet
pair, (b) interior of a matched straight-double-quote pair, (c) the
remainder after the directed marker, each trimmed and required
non-empty, else the destination stays absent. -/
def parse (raw : Option String) : Intent :=
  match raw with
  | none => { shouldSave := false, destination := none }
  | some s =>
    let cs := s.data
    if cs.isEmpty then { shouldSave := false, destination := none }
    else if containsSub (lowerCL TRIGGER_KEYWORD.data) (lowerCL cs) = false then
      { shouldSave := false, destination := none }
    else if containsSub (lowerCL DIRECTED_MARKER.data) (lowerCL cs) = false then
      { shouldSave := true, destination := none }
    else
      let d :=
        match (extractBetween '«' '»' cs).bind nonEmptyTrim with
        | some t => some t
        | none =>
          match (extractBetween '\"' '\"' cs).bind nonEmptyTrim with
          | some t => some t
          | none => (dropThroughMarker (lowerCL DIRECTED_MARKER.data) cs).bind nonEmptyTrim
      { shouldSave := true, destination := d.map String.mk }

/-- Modelled from the spec: final-destination computation of the Save
Orchestrator (section 4.3 step 5): a non-empty explicitly supplied
destination always wins over the parsed one; otherwise the parsed
destination, possibly absent, is used. -/
def finalDestination (explicit parsed : Option String) : Option String :=
  match explicit with
  | some e => if e = "" then parsed else some e
  | none => parsed

/-- Modelled from the spec: the utterance-gated Save Orchestrator
(section 4.3 steps 3-5), absent from src/server.py where gating is
delegated to the calling agent.  When the parsed intent does not ask to
save, a skipped outcome is returned and no network call happens;
otherwise the source tool `ai_organiser_save` runs on the merged
destination. -/
def save_with_utterance (anonKey : String) (ctx : Option RequestContext)
    (envToken : Option String) (body : String) (rawUtterance : Option String)
    (explicitDestination : Option String) (title : Option String)
    (outcome : TransportOutcome) : SaveOutput :=
  let intent := parse rawUtterance
  if intent.shouldSave then
    ai_organiser_save anonKey ctx envToken body
      (finalDestination explicitDestination intent.destination) title outcome
  else
    { result := { saved := false, error_type := "skipped" },
      networkCalled := false }

theorem isPrefixCL_append_self (n t : List Char) : isPrefixCL n (n ++ t) = true := by
  induction n with
  | nil => rfl
  | cons a as ih => simp [isPrefixCL, ih]

theorem containsSub_of_isPrefixCL (n h : List Char) (hp : isPrefixCL n h = true) :
    containsSub n h = true := by
  cases h with
  | nil =>
    cases n with
    | nil => rfl
    | cons a as => simp [isPrefixCL] at hp
  | cons a rest => simp [containsSub, hp]

theorem containsSub_append_self (n rest : List Char) :
    containsSub n (n ++ rest) = true :=
  containsSub_of_isPrefixCL n (n ++ rest) (isPrefixCL_append_self n rest)

theorem afterFirst_append (c : Char) (pre rest : List Char) (h : c ∉ pre) :
    afterFirst c (pre ++ c :: rest) = some rest := by
  induction pre with
  | nil => simp [afterFirst]
  | cons a as ih =>
    have ha : a ≠ c := fun he => h (he ▸ List.mem_cons_self a as)
    have has : c ∉ as := fun hm => h (List.mem_cons_of_mem a hm)
    simp [afterFirst, ha, ih has]

theorem beforeFirst_append (c : Char) (x post : List Char) (h : c ∉ x) :
    beforeFirst c (x ++ c :: post) = some x := by
  induction x with
  | nil => simp [beforeFirst]
  | cons a as ih =>
    have ha : a ≠ c := fun he => h (he ▸ List.mem_cons_self a as)
    have has : c ∉ as := fun hm => h (List.mem_cons_of_mem a hm)
    simp [beforeFirst, ha, ih has]

theorem extractBetween_append (pre mid post : List Char)
    (hl : '«' ∉ pre) (hr : '»' ∉ mid) :
    extractBetween '«' '»' (pre ++ '«' :: (mid ++ '»' :: post)) = some mid := by
  unfold extractBetween
  rw [afterFirst_append '«' pre (mid ++ '»' :: post) hl]
  exact beforeFirst_append '»' mid post hr

theorem splitFirstSpace_append (scheme rest : List Char) (h : ' ' ∉ scheme) :
    splitFirstSpace (scheme ++ ' ' :: rest) = (scheme, some rest) := by
  induction scheme with
  | nil => simp [splitFirstSpace]
  | cons a as ih =>
    have ha : a ≠ ' ' := fun he => h (he ▸ List.mem_cons_self a as)
    have has : ' ' ∉ as := fun hm => h (List.mem_cons_of_mem a hm)
    simp [splitFirstSpace, ha, ih has]

theorem token_from_header_ne_empty (auth : Option String) :
    token_from_header auth ≠ some "" := by
  cases auth with
  | none => simp [token_from_header]
  | some a =>
    rcases hsp : splitFirstSpace a.data with ⟨scheme, rest?⟩
    simp only [token_from_header, hsp]
    cases rest? with
    | none => simp
    | some rest =>
      by_cases hb : lowerCL scheme = "bearer".data
      · simp only [hb, if_true]
        by_cases hc : trimCL rest = []
        · simp [hc]
        · simp only [hc, if_false]
          intro he
          apply hc
          have h2 : String.mk (trimCL rest) = "" := Option.some_inj.mp he
          have h3 : (String.mk (trimCL rest)).data = ("" : String).data := by rw [h2]
          exact h3
      · simp [hb]

/-- C9: credential resolution never returns an empty string; its result
is absent exactly when neither the bearer header nor the environment
variable yields a non-empty value. -/
theorem C9_resolution_never_empty (ctx : Option RequestContext) (envToken : Option String) :
    get_integration_token ctx envToken ≠ some "" ∧
    (get_integration_token ctx envToken = none ↔
      (token_from_header (dictGet (get_http_headers ctx) "authorization") = none ∧
       envNonEmpty envToken = none)) := by
  constructor
  · unfold get_integration_token
    cases htf : token_from_header (dictGet (get_http_headers ctx) "authorization") with
    | none =>
      cases envToken with
      | none => simp [envNonEmpty]
      | some e =>
        by_cases he : e = "" <;> simp [envNonEmpty, he]
    | some t =>
      intro he
      exact token_from_header_ne_empty (dictGet (get_http_headers ctx) "authorization") (htf.trans he)
  · unfold get_integration_token
    cases htf : token_from_header (dictGet (get_http_headers ctx) "authorization") with
    | none => simp
    | some t => simp

/-- C10: on every code path of `ai_organiser_save` (misconfiguration,
missing credential, HTTP error, transport exception, success) the
returned dict has `saved = true` exactly when `error_type = "none"`. -/
theorem C10_saved_iff_error_none (anonKey : String) (ctx : Option RequestContext)
    (envToken : Option String) (body : String) (project_name title : Option String)
    (outcome : TransportOutcome) :
    ((ai_organiser_save anonKey ctx envToken body project_name title outcome).result.saved = true) ↔
    ((ai_organiser_save anonKey ctx envToken body project_name title outcome).result.error_type = "none") := by
  by_cases hk : anonKey = ""
  · simp [ai_organiser_save, hk]
  · cases hg : get_integration_token ctx envToken with
    | none => simp [ai_organiser_save, hk, hg]
    | some t =>
      cases outcome with
      | exc d => simp [ai_organiser_save, hk, hg]
      | response s =>
        by_cases hs : 400 ≤ s
        · by_cases h43 : s = 401 ∨ s = 403 <;>
            simp [ai_organiser_save, hk, hg, hs, h43]
        · simp [ai_organiser_save, hk, hg, hs]

/-- C2 counterexample: with a query parameter `token=Q`, a custom
header value `C` and the environment secret `E` all present (and no
bearer header), the code resolves `E` — the query-parameter value is
not chosen, refuting the claimed four-source priority order. -/
theorem C2_counterexample_query_param_ignored :
    get_integration_token
        (some { queryParams := [("token", "Q")], headers := [("x-api-key", "C")] })
        (some "E") = some "E" ∧
    (some "E" : Option String) ≠ some "Q" ∧
    (some "E" : Option String) ≠ some "C" := by
  refine ⟨by decide, by decide, by decide⟩

/-- C2 amended: credential resolution consults, in order, only the
bearer-authorization header of the current HTTP request and then the
process environment variable, taking the first non-empty match; URL
query parameters (and any other header) do not participate, so the
result is invariant under changes to the query parameters. -/
theorem C2_amended_resolution_order (q q' hs : List (String × String)) (envToken : Option String) :
    get_integration_token (some { queryParams := q, headers := hs }) envToken =
      get_integration_token (some { queryParams := q', headers := hs }) envToken ∧
    (∀ t, token_from_header (dictGet hs "authorization") = some t →
      get_integration_token (some { queryParams := q, headers := hs }) envToken = some t) ∧
    (token_from_header (dictGet hs "authorization") = none →
      get_integration_token (some { queryParams := q, headers := hs }) envToken =
        envNonEmpty envToken) := by
  refine ⟨rfl, ?_, ?_⟩
  · intro t ht
    simp [get_integration_token, get_http_headers, ht]
  · intro ht
    simp [get_integration_token, get_http_headers, ht]

theorem C2_amended_witness :
    get_integration_token
        (some { queryParams := [("token", "Q")],
                headers := [("authorization", "Bearer abc")] })
        (some "E") = some "abc" :=
  (C2_amended_resolution_order [("token", "Q")] []
      [("authorization", "Bearer abc")] (some "E")).2.1 "abc" (by decide)

/-- C4: when credential resolution yields nothing, the save operation
fails with category `auth_error`, carries the re-authorization hint,
and performs no network call. -/
theorem C4_no_credential_auth_error (anonKey : String) (ctx : Option RequestContext)
    (envToken : Option String) (body : String) (project_name title : Option String)
    (outcome : TransportOutcome) (hk : anonKey ≠ "")
    (h : get_integration_token ctx envToken = none) :
    (ai_organiser_save anonKey ctx envToken body project_name title outcome).result.saved = false ∧
    (ai_organiser_save anonKey ctx envToken body project_name title outcome).result.error_type = "auth_error" ∧
    (ai_organiser_save anonKey ctx envToken body project_name title outcome).result.message_for_model = some msgNoToken ∧
    (ai_organiser_save anonKey ctx envToken body project_name title outcome).networkCalled = false := by
  simp [ai_organiser_save, hk, h]

theorem C4_witness :
    (ai_organiser_save "k" none none "план" none none (.response 200)).result.saved = false ∧
    (ai_organiser_save "k" none none "план" none none (.response 200)).result.error_type = "auth_error" ∧
    (ai_organiser_save "k" none none "план" none none (.response 200)).result.message_for_model = some msgNoToken ∧
    (ai_organiser_save "k" none none "план" none none (.response 200)).networkCalled = false :=
  C4_no_credential_auth_error "k" none none "план" none none (.response 200)
    (by decide) (by decide)

/-- C3: with the backend configured and a credential resolved, every
transport outcome maps as claimed: a raised transport exception to a
backend_error failure, HTTP 401 and 403 to auth_error, any other status
of at least 400 to backend_error, and any status below 400 to success.
The embedding is total, mirroring that no exception escapes the
operation. -/
theorem C3_outcome_mapping (anonKey : String) (ctx : Option RequestContext)
    (envToken : Option String) (body : String) (project_name title : Option String)
    (outcome : TransportOutcome) (hk : anonKey ≠ "")
    (ht : get_integration_token ctx envToken ≠ none) :
    (∀ d, outcome = .exc d →
      (ai_organiser_save anonKey ctx envToken body project_name title outcome).result.saved = false ∧
      (ai_organiser_save anonKey ctx envToken body project_name title outcome).result.error_type = "backend_error") ∧
    (∀ s, outcome = .response s → (s = 401 ∨ s = 403) →
      (ai_organiser_save anonKey ctx envToken body project_name title outcome).result.saved = false ∧
      (ai_organiser_save anonKey ctx envToken body project_name title outcome).result.error_type = "auth_error") ∧
    (∀ s, outcome = .response s → 400 ≤ s → ¬(s = 401 ∨ s = 403) →
      (ai_organiser_save anonKey ctx envToken body project_name title outcome).result.saved = false ∧
      (ai_organiser_save anonKey ctx envToken body project_name title outcome).result.error_type = "backend_error") ∧
    (∀ s, outcome = .response s → s < 400 →
      (ai_organiser_save anonKey ctx envToken body project_name title outcome).result.saved = true ∧
      (ai_organiser_save anonKey ctx envToken body project_name title outcome).result.error_type = "none") := by
  obtain ⟨t, htok⟩ : ∃ t, get_integration_token ctx envToken = some t := by
    cases hg : get_integration_token ctx envToken with
    | none => exact absurd hg ht
    | some t => exact ⟨t, rfl⟩
  refine ⟨?_, ?_, ?_, ?_⟩
  · intro d hd
    subst hd
    simp [ai_organiser_save, hk, htok]
  · intro s hs h43
    subst hs
    have hge : 400 ≤ s := by rcases h43 with h | h <;> omega
    simp [ai_organiser_save, hk, htok, hge, h43]
  · intro s hs hge h43
    subst hs
    simp [ai_organiser_save, hk, htok, hge, h43]
  · intro s hs hlt
    subst hs
    have hge : ¬ 400 ≤ s := by omega
    simp [ai_organiser_save, hk, htok, hge]

theorem C3_witness :
    (ai_organiser_save "k" none (some "t") "b" none none (.response 403)).result.error_type = "auth_error" ∧
    (ai_organiser_save "k" none (some "t") "b" none none (.response 500)).result.error_type = "backend_error" ∧
    (ai_organiser_save "k" none (some "t") "b" none none (.exc "timeout")).result.error_type = "backend_error" ∧
    (ai_organiser_save "k" none (some "t") "b" none none (.response 200)).result.saved = true := by
  refine ⟨?_, ?_, ?_, ?_⟩
  · exact ((C3_outcome_mapping "k" none (some "t") "b" none none (.response 403)
      (by decide) (by decide)).2.1 403 rfl (Or.inr rfl)).2
  · exact ((C3_outcome_mapping "k" none (some "t") "b" none none (.response 500)
      (by decide) (by decide)).2.2.1 500 rfl (by omega) (by omega)).2
  · exact ((C3_outcome_mapping "k" none (some "t") "b" none none (.exc "timeout")
      (by decide) (by decide)).1 "timeout" rfl).2
  · exact ((C3_outcome_mapping "k" none (some "t") "b" none none (.response 200)
      (by decide) (by decide)).2.2.2 200 rfl (by omega)).1

/-- C5: the outbound payload carries the `project` field exactly when a
destination was determined (an absent or empty destination is never
sent, in particular never as an empty string), and on success the
result echoes the resolved destination with the inbox label as the
default display name. -/
theorem C5_project_field_and_echo (body : String) (project_name : Option String) :
    ((buildPayload body project_name).project = none ↔
      (project_name = none ∨ project_name = some "")) ∧
    (buildPayload body project_name).project ≠ some "" ∧
    orInbox none = "Inbox" ∧
    (∀ (anonKey : String) (ctx : Option RequestContext) (envToken ttl : Option String) (s : Nat),
      anonKey ≠ "" → get_integration_token ctx envToken ≠ none → s < 400 →
      (ai_organiser_save anonKey ctx envToken body project_name ttl (.response s)).payloadSent =
          some (buildPayload body project_name) ∧
      (ai_organiser_save anonKey ctx envToken body project_name ttl (.response s)).result.project_name =
          some (orInbox project_name)) := by
  refine ⟨?_, ?_, rfl, ?_⟩
  · cases project_name with
    | none => simp [buildPayload]
    | some p => by_cases hp : p = "" <;> simp [buildPayload, hp]
  · cases project_name with
    | none => simp [buildPayload]
    | some p =>
      by_cases hp : p = "" <;> simp [buildPayload, hp]
  · intro anonKey ctx envToken ttl s hk ht hs
    obtain ⟨t, htok⟩ : ∃ t, get_integration_token ctx envToken = some t := by
      cases hg : get_integration_token ctx envToken with
      | none => exact absurd hg ht
      | some t => exact ⟨t, rfl⟩
    have hge : ¬ 400 ≤ s := by omega
    constructor <;> simp [ai_organiser_save, hk, htok, hge]

theorem C5_witness :
    (ai_organiser_save "k" none (some "t") "план" (some "P") none (.response 200)).payloadSent =
      some (buildPayload "план" (some "P")) ∧
    (ai_organiser_save "k" none (some "t") "план" none none (.response 200)).result.project_name =
      some (orInbox none) := by
  constructor
  · exact ((C5_project_field_and_echo "план" (some "P")).2.2.2 "k" none (some "t") none 200
      (by decide) (by decide) (by omega)).1
  · exact ((C5_project_field_and_echo "план" none).2.2.2 "k" none (some "t") none 200
      (by decide) (by decide) (by omega)).2

/-- C6: bearer-authorization parsing matches the scheme prefix
case-insensitively before a literal space, trims the remainder, accepts
a non-empty trimmed remainder as the credential, and rejects an empty
trimmed remainder so that resolution falls through to the environment
source. -/
theorem C6_bearer_scheme_parsing (scheme rest : List Char) (envToken : Option String)
    (hs : ' ' ∉ scheme) (hlow : lowerCL scheme = "bearer".data) :
    (trimCL rest ≠ [] →
      get_integration_token
          (some { queryParams := [],
                  headers := [("authorization", String.mk (scheme ++ ' ' :: rest))] })
          envToken = some (String.mk (trimCL rest))) ∧
    (trimCL rest = [] →
      get_integration_token
          (some { queryParams := [],
                  headers := [("authorization", String.mk (scheme ++ ' ' :: rest))] })
          envToken = envNonEmpty envToken) := by
  have hauth : dictGet [("authorization", String.mk (scheme ++ ' ' :: rest))] "authorization" =
      some (String.mk (scheme ++ ' ' :: rest)) := by simp [dictGet]
  have hdata : (String.mk (scheme ++ ' ' :: rest)).data = scheme ++ ' ' :: rest := rfl
  constructor
  · intro hne
    simp only [get_integration_token, get_http_headers, hauth, token_from_header, hdata,
      splitFirstSpace_append scheme rest hs, hlow, if_true]
    simp [hne]
  · intro heq
    simp only [get_integration_token, get_http_headers, hauth, token_from_header, hdata,
      splitFirstSpace_append scheme rest hs, hlow, if_true]
    simp [heq]

theorem C6_witness :
    get_integration_token
        (some { queryParams := [],
                headers := [("authorization", String.mk ("BeArEr".data ++ ' ' :: "  tok ".data))] })
        none = some (String.mk (trimCL "  tok ".data)) ∧
    get_integration_token
        (some { queryParams := [],
                headers := [("authorization", String.mk ("Bearer".data ++ ' ' :: "   ".data))] })
        (some "envtok") = envNonEmpty (some "envtok") := by
  constructor
  · exact (C6_bearer_scheme_parsing "BeArEr".data "  tok ".data none
      (by decide) (by decide)).1 (by decide)
  · exact (C6_bearer_scheme_parsing "Bearer".data "   ".data (some "envtok")
      (by decide) (by decide)).2 (by decide)

/-- C1: for every invocation of the utterance-gated save whose raw
utterance lacks the trigger keyword (case-insensitively), the outcome
is skipped and the backend is never called, regardless of every other
argument.  The gating layer itself is modelled from the spec, since
src/server.py delegates trigger detection to the calling agent. -/
theorem C1_no_trigger_no_network (anonKey : String) (ctx : Option RequestContext)
    (envToken : Option String) (body u : String)
    (explicitDestination title : Option String) (outcome : TransportOutcome)
    (h : containsSub (lowerCL TRIGGER_KEYWORD.data) (lowerCL u.data) = false) :
    (save_with_utterance anonKey ctx envToken body (some u) explicitDestination title outcome).result.saved = false ∧
    (save_with_utterance anonKey ctx envToken body (some u) explicitDestination title outcome).result.error_type = "skipped" ∧
    (save_with_utterance anonKey ctx envToken body (some u) explicitDestination title outcome).networkCalled = false := by
  have hp : (parse (some u)).shouldSave = false := by
    unfold parse
    by_cases he : u.data.isEmpty
    · simp [he]
    · simp [he, h]
  unfold save_with_utterance
  simp [hp]

theorem C1_witness :
    (save_with_utterance "k" none (some "t") "b" (some "напиши план") none none (.response 200)).result.saved = false ∧
    (save_with_utterance "k" none (some "t") "b" (some "напиши план") none none (.response 200)).result.error_type = "skipped" ∧
    (save_with_utterance "k" none (some "t") "b" (some "напиши план") none none (.response 200)).networkCalled = false :=
  C1_no_trigger_no_network "k" none (some "t") "b" "напиши план" none none
    (.response 200) (by decide)

/-- C7: a non-empty explicitly supplied destination always overrides a
parsed one in the final-destination merge, and concretely, with
utterance "сохрани в «A»" and explicit destination "B", the payload
sent to the backend carries destination "B".  The merge and the parser
are modelled from the spec, since src/server.py delegates them to the
calling agent. -/
theorem C7_explicit_destination_overrides (e : String) (parsed : Option String)
    (h : e ≠ "") :
    finalDestination (some e) parsed = some e ∧
    (save_with_utterance "k" none (some "t") "body" (some "сохрани в «A»")
        (some "B") none (.response 200)).payloadSent =
      some { text := "body", project := some "B" } := by
  constructor
  · simp [finalDestination, h]
  · decide

theorem C7_witness :
    finalDestination (some "B") (some "A") = some "B" :=
  (C7_explicit_destination_overrides "B" (some "A") (by decide)).1

/-- C8: for every utterance of the form keyword, preposition, then a
destination delimited by a matched guillemet pair whose interior
contains no guillemet, the parser extracts exactly the interior text,
trimmed; in particular "сохрани в «Здоровье»" parses to destination
"Здоровье".  The parser is modelled from the spec, since src/server.py
delegates intent parsing to the calling agent. -/
theorem C8_guillemet_destination (x : String)
    (h1 : '«' ∉ x.data) (h2 : '»' ∉ x.data) (h3 : trimCL x.data ≠ []) :
    parse (some ("сохрани в «" ++ x ++ "»")) =
      { shouldSave := true, destination := some (String.mk (trimCL x.data)) } := by
  have hsplit : "сохрани в «".data = "сохрани в ".data ++ ['«'] := rfl
  have hguil : ("»" : String).data = ['»'] := rfl
  have hdata : ("сохрани в «" ++ x ++ "»").data =
      "сохрани в ".data ++ '«' :: (x.data ++ '»' :: []) := by
    rw [String.data_append, String.data_append, hsplit, hguil]
    simp
  have hne : (("сохрани в «" ++ x ++ "»").data).isEmpty = false := by
    rw [hdata]; rfl
  have hkw : containsSub (lowerCL TRIGGER_KEYWORD.data)
      (lowerCL ("сохрани в «" ++ x ++ "»").data) = true := by
    rw [hdata]
    unfold lowerCL
    rw [List.map_append]
    have he : List.map lowerChar "сохрани в ".data = "сохрани".data ++ " в ".data := by decide
    have hk2 : List.map lowerChar TRIGGER_KEYWORD.data = "сохрани".data := by decide
    rw [he, hk2, List.append_assoc]
    exact containsSub_append_self _ _
  have hmk : containsSub (lowerCL DIRECTED_MARKER.data)
      (lowerCL ("сохрани в «" ++ x ++ "»").data) = true := by
    rw [hdata]
    unfold lowerCL
    rw [List.map_append]
    have he : List.map lowerChar "сохрани в ".data = "сохрани в".data ++ [' '] := by decide
    have hm2 : List.map lowerChar DIRECTED_MARKER.data = "сохрани в".data := by decide
    rw [he, hm2, List.append_assoc]
    exact containsSub_append_self _ _
  have hex : extractBetween '«' '»' (("сохрани в «" ++ x ++ "»").data) = some x.data := by
    rw [hdata]
    exact extractBetween_append "сохрани в ".data x.data [] (by decide) h2
  unfold parse
  simp at hne hkw hmk hex
  simp [hne, hkw, hmk, hex, nonEmptyTrim, h3]

theorem C8_witness :
    parse (some "сохрани в «Здоровье»") =
      { shouldSave := true, destination := some "Здоровье" } := by
  have hs : "сохрани в «Здоровье»" = "сохрани в «" ++ "Здоровье" ++ "»" := by decide
  rw [hs]
  exact (C8_guillemet_destination "Здоровье" (by decide) (by decide) (by decide)).trans
    (by decide)
